import Mathlib

/-!
# Verification of the LRI prediction pipeline (`inference.py`)

A shallow embedding of the core decision pipeline of the repository:
the angular feature transform, the cylinder-notation converter, the
feature builder, the clinical threshold gate and the decision router
of `LRIPredictor`.  Python floats are modelled as real numbers; the
three opaque XGBoost models are modelled as parameters (the classifier
as an integer-valued scoring function, the two length regressors as
real-valued scoring functions); a raised Python exception is modelled
as `Option.none`.
-/

namespace LRI

/-- `np.radians`: degrees to radians, `x * π / 180`. -/
noncomputable def radians (x : ℝ) : ℝ := x * Real.pi / 180

/-- `get_magnitude_at_axis` from `inference.py`: magnitude of an
astigmatism measurement projected onto a desired axis; returns `0.0`
immediately when the magnitude is `0`. -/
noncomputable def get_magnitude_at_axis (magnitude angle_degrees desired_axis_degrees : ℝ) : ℝ :=
  if magnitude = 0 then 0
  else magnitude * Real.cos (radians (2 * (desired_axis_degrees - angle_degrees)))

/-- `convert_neg_to_pos_cyl` from `inference.py`: negate the cylinder,
add 90° to the axis and subtract 180° when the sum exceeds 180°. -/
noncomputable def convert_neg_to_pos_cyl (neg_cyl neg_axis : ℝ) : ℝ × ℝ :=
  (-neg_cyl, if neg_axis + 90 > 180 then neg_axis + 90 - 180 else neg_axis + 90)

/-- Reduction of a real angle modulo 180° to the canonical
representative in `[0, 180)`; used to state the round-trip property of
the cylinder converter ("re-rotating by −90° (mod 180)"). -/
noncomputable def wrap180 (x : ℝ) : ℝ := x - 180 * ⌊x / 180⌋

/-- Python's `str.upper()` (ASCII), as applied to the laterality
string.  Modelled on the character list (`String.toUpper` itself is
defined by well-founded recursion over byte positions and does not
reduce inside the kernel, but is extensionally this map). -/
def pyUpper (s : String) : String := ⟨s.data.map Char.toUpper⟩

/-- The laterality encoding on line 215 of `inference.py`:
`0 if patient_data['laterality'].upper() == 'OD' else 1`. -/
def laterality_code (s : String) : ℕ :=
  if pyUpper s = "OD" then 0 else 1

/-- Python's `int(x)` on a float: truncation toward zero (used on
`barrett_k_axis` for the output axis). -/
noncomputable def pyInt (x : ℝ) : ℤ := if 0 ≤ x then ⌊x⌋ else -⌊-x⌋

/-- Python's `round(x, 1)`: rounding to one decimal place.  (Tie
breaking — CPython rounds half to even on binary floats — is not
observable in any of the verified properties, which only compare one
rounding of a regressor output with another rounding of the same
output; modelled with Mathlib's `round`.) -/
noncomputable def round1 (x : ℝ) : ℝ := (round (x * 10) : ℤ) / 10

/-- A raw patient record: the 15 named input fields of the prediction
API, numeric fields as reals and laterality as a string. -/
structure PatientData where
  age : ℝ
  laterality : String
  manifest_cylinder : ℝ
  manifest_axis : ℝ
  barrett_k_magnitude : ℝ
  barrett_k_axis : ℝ
  delta_k_iol700_magnitude : ℝ
  delta_k_iol700_axis : ℝ
  delta_tk_iol700_magnitude : ℝ
  delta_tk_iol700_axis : ℝ
  post_astig_iol700_magnitude : ℝ
  post_astig_iol700_axis : ℝ
  pentacam_delta_k_magnitude : ℝ
  pentacam_delta_k_axis : ℝ
  axial_length : ℝ

/-- The feature dictionary returned by `preprocess_patient`, one field
per feature name (`'Age'`, `'Laterality'`,
`'Barrett Integrated-K magnitude (D)'`, `'BIK_axis_cos'`,
`'BIK_axis_sin'`, `'deltaTK_IOL700_cyl_atBIKaxis'`,
`'Manifest_cyl_at_BIKaxis'`, `'deltaK_IOL700_cyl_atBIKaxis'`,
`'PostAstig_IOL700_cyl_atBIKaxis'`, `'Pentacam_cyl_atBIKaxis'`,
`'Axial length (mm)'`). -/
structure Features where
  age : ℝ
  laterality : ℝ
  barrett_k_magnitude : ℝ
  bik_axis_cos : ℝ
  bik_axis_sin : ℝ
  delta_tk_at_bik : ℝ
  manifest_cyl_at_bik : ℝ
  delta_k_at_bik : ℝ
  post_astig_at_bik : ℝ
  pentacam_at_bik : ℝ
  axial_length : ℝ

/-- `LRIPredictor.preprocess_patient`: build the feature dictionary
from the raw patient record — the BIK double-angle encoding, the
manifest cylinder normalized to positive notation when negative, the
four projections onto the BIK axis, and the laterality code. -/
noncomputable def preprocess_patient (p : PatientData) : Features :=
  let bik_axis := p.barrett_k_axis
  let manifest := if p.manifest_cylinder < 0 then
      convert_neg_to_pos_cyl p.manifest_cylinder p.manifest_axis
    else (p.manifest_cylinder, p.manifest_axis)
  { age := p.age
    laterality := (laterality_code p.laterality : ℝ)
    barrett_k_magnitude := p.barrett_k_magnitude
    bik_axis_cos := Real.cos (radians (bik_axis * 2))
    bik_axis_sin := Real.sin (radians (bik_axis * 2))
    delta_tk_at_bik :=
      get_magnitude_at_axis p.delta_tk_iol700_magnitude p.delta_tk_iol700_axis bik_axis
    manifest_cyl_at_bik := get_magnitude_at_axis manifest.1 manifest.2 bik_axis
    delta_k_at_bik :=
      get_magnitude_at_axis p.delta_k_iol700_magnitude p.delta_k_iol700_axis bik_axis
    post_astig_at_bik :=
      get_magnitude_at_axis p.post_astig_iol700_magnitude p.post_astig_iol700_axis bik_axis
    pentacam_at_bik :=
      get_magnitude_at_axis p.pentacam_delta_k_magnitude p.pentacam_delta_k_axis bik_axis
    axial_length := p.axial_length }

/-- The human-readable recommendation of a prediction.  The four
`"None"`-branch recommendations are distinct string literals in the
source; the Single/Paired branches interpolate the rounded length and
the axis into an f-string.  Formatting a float into text is not
modelled, so each f-string template is a constructor carrying its
interpolated values, and each literal is its own constructor. -/
inductive Recommendation where
  | noneATR      -- "No arcuates recommended (ATR astigmatism below threshold)"
  | noneWTR      -- "No arcuates recommended (WTR astigmatism below threshold)"
  | noneOblique  -- "No arcuates recommended (oblique astigmatism below threshold)"
  | noneModel    -- "No arcuates recommended"
  | single (lri_length : ℝ) (bik_axis : ℤ)
  | paired (lri_length : ℝ) (bik_axis : ℤ)

/-- The `LRIPrediction` dataclass of `inference.py`. -/
structure LRIPrediction where
  arcuate_type : String
  arcuate_code : ℤ
  lri_length : Option ℝ
  lri_axis : Option ℤ
  num_arcuates : ℤ
  recommendation : Recommendation

/-- The terminal `"None"`-category `LRIPrediction` built in the gate
branches and in the classifier's `"None"` branch — identical fields
except for the recommendation. -/
def mkNoneResult (r : Recommendation) : LRIPrediction :=
  { arcuate_type := "None", arcuate_code := 0, lri_length := none,
    lri_axis := none, num_arcuates := 0, recommendation := r }

/-- `self.class_mapping = {0: "None", 1: "Single", 2: "Paired"}`; a
lookup of any other code raises a Python `KeyError`, modelled as
`none`. -/
def class_mapping (code : ℤ) : Option String :=
  if code = 0 then some "None"
  else if code = 1 then some "Single"
  else if code = 2 then some "Paired"
  else none

/-- The clinical threshold rules at the top of `LRIPredictor.predict`
(lines 288–328 of `inference.py`): `bik_axis_cos > 0.5` requires
magnitude at least 0.1, `bik_axis_cos < -0.55` at least 0.3, and the
remaining (oblique) band at least 0.2; strictly below the bound, a
terminal `"None"` result is returned; otherwise the pipeline falls
through (`none`) to model-based classification. -/
noncomputable def threshold_gate (bik_axis_cos barrett_k_mag : ℝ) : Option LRIPrediction :=
  if bik_axis_cos > 0.5 then
    if barrett_k_mag < 0.1 then some (mkNoneResult .noneATR) else none
  else if bik_axis_cos < -0.55 then
    if barrett_k_mag < 0.3 then some (mkNoneResult .noneWTR) else none
  else
    if barrett_k_mag < 0.2 then some (mkNoneResult .noneOblique) else none

/-- The model-based part of `LRIPredictor.predict` (lines 330–364):
classify with Model 1, then branch on the mapped class string.
`classifier` abstracts `predict_arcuate_type`'s
`int(self.model1.predict(dmatrix)[0])` as an opaque integer-valued
scoring function; `reg_single` and `reg_paired` abstract
`predict_lri_length_single` (Model 2) and `predict_lri_length_paired`
(Model 3). -/
noncomputable def classify_route (classifier : Features → ℤ)
    (reg_single reg_paired : Features → ℝ)
    (features : Features) (bik_axis : ℤ) : Option LRIPrediction :=
  match class_mapping (classifier features) with
  | none => none
  | some arcuate_type =>
    if arcuate_type = "None" then
      some (mkNoneResult .noneModel)
    else if arcuate_type = "Single" then
      some { arcuate_type := "Single", arcuate_code := 1,
             lri_length := some (round1 (reg_single features)),
             lri_axis := some bik_axis, num_arcuates := 1,
             recommendation := .single (round1 (reg_single features)) bik_axis }
    else
      some { arcuate_type := "Paired", arcuate_code := 2,
             lri_length := some (round1 (reg_paired features)),
             lri_axis := some bik_axis, num_arcuates := 2,
             recommendation := .paired (round1 (reg_paired features)) bik_axis }

/-- `LRIPredictor.predict`: AUTO SELECT mode.  Truncate the BIK axis,
preprocess, apply the threshold gate, and otherwise run the
model-based classification and routing. -/
noncomputable def predict (classifier : Features → ℤ)
    (reg_single reg_paired : Features → ℝ) (p : PatientData) : Option LRIPrediction :=
  match threshold_gate (preprocess_patient p).bik_axis_cos p.barrett_k_magnitude with
  | some r => some r
  | none =>
      classify_route classifier reg_single reg_paired
        (preprocess_patient p) (pyInt p.barrett_k_axis)

/-- `LRIPredictor.predict_single_only`: manual Single mode — no gate,
no classifier; Model 2 only. -/
noncomputable def predict_single_only (reg_single : Features → ℝ) (p : PatientData) :
    LRIPrediction :=
  { arcuate_type := "Single", arcuate_code := 1,
    lri_length := some (round1 (reg_single (preprocess_patient p))),
    lri_axis := some (pyInt p.barrett_k_axis), num_arcuates := 1,
    recommendation :=
      .single (round1 (reg_single (preprocess_patient p))) (pyInt p.barrett_k_axis) }

/-- `LRIPredictor.predict_paired_only`: manual Paired mode — no gate,
no classifier; Model 3 only. -/
noncomputable def predict_paired_only (reg_paired : Features → ℝ) (p : PatientData) :
    LRIPrediction :=
  { arcuate_type := "Paired", arcuate_code := 2,
    lri_length := some (round1 (reg_paired (preprocess_patient p))),
    lri_axis := some (pyInt p.barrett_k_axis), num_arcuates := 2,
    recommendation :=
      .paired (round1 (reg_paired (preprocess_patient p))) (pyInt p.barrett_k_axis) }

/-- The gate-firing condition on the raw primary (Barrett Integrated-K)
measurement, as the specification phrases it: the orientation category
is determined by the cosine of twice the primary axis — `> 0.5`
against-the-rule (threshold 0.1), `< -0.55` with-the-rule (threshold
0.3), otherwise oblique (threshold 0.2) — and the gate fires exactly
when the raw magnitude is strictly below its category's threshold. -/
def gate_fires (axisCos barrett_k_mag : ℝ) : Prop :=
  (axisCos > 0.5 ∧ barrett_k_mag < 0.1) ∨
  (axisCos < -0.55 ∧ barrett_k_mag < 0.3) ∨
  (-0.55 ≤ axisCos ∧ axisCos ≤ 0.5 ∧ barrett_k_mag < 0.2)

/-- A concrete patient whose primary axis is 0° (so the axis cosine is
1, the `> 0.5` band) and whose primary magnitude 0.05 is strictly below
that band's 0.1 threshold: the gate fires on this record. -/
noncomputable def patientGate : PatientData :=
  { age := 68, laterality := "OD", manifest_cylinder := -1.5,
    manifest_axis := 180, barrett_k_magnitude := 0.05, barrett_k_axis := 0,
    delta_k_iol700_magnitude := 0.45, delta_k_iol700_axis := 88,
    delta_tk_iol700_magnitude := 0.52, delta_tk_iol700_axis := 92,
    post_astig_iol700_magnitude := 0.1, post_astig_iol700_axis := 178,
    pentacam_delta_k_magnitude := 0.41, pentacam_delta_k_axis := 87,
    axial_length := 23.5 }

/-- A concrete patient whose primary axis is 0° (axis cosine 1, the
`> 0.5` band) and whose primary magnitude 0.5 meets that band's 0.1
threshold: the gate does not fire on this record. -/
noncomputable def patientNoGate : PatientData :=
  { age := 68, laterality := "OD", manifest_cylinder := -1.5,
    manifest_axis := 180, barrett_k_magnitude := 0.5, barrett_k_axis := 0,
    delta_k_iol700_magnitude := 0.45, delta_k_iol700_axis := 88,
    delta_tk_iol700_magnitude := 0.52, delta_tk_iol700_axis := 92,
    post_astig_iol700_magnitude := 0.1, post_astig_iol700_axis := 178,
    pentacam_delta_k_magnitude := 0.41, pentacam_delta_k_axis := 87,
    axial_length := 23.5 }

end LRI

namespace LRI

/-- C5: `get_magnitude_at_axis` is total, it equals
`m * cos(2 * (b - a) * π/180)` (in particular whenever `m ≠ 0`), and it
is exactly `0` whenever the magnitude is `0`, regardless of the axes. -/
theorem get_magnitude_at_axis_spec (m a b : ℝ) :
    get_magnitude_at_axis m a b = m * Real.cos (radians (2 * (b - a))) ∧
    get_magnitude_at_axis 0 a b = 0 := by
  constructor
  · unfold get_magnitude_at_axis
    split_ifs with h
    · rw [h]; ring
    · rfl
  · unfold get_magnitude_at_axis
    simp

/-- C4 counterexample: at `negCylMagnitude = -1`, `negAxisDeg = 90`
(inside the claimed domain), the converter returns axis exactly `180`,
which is not in the claimed half-open interval `[0, 180)`. -/
theorem convert_neg_to_pos_cyl_axis_180 :
    (-1 : ℝ) ≤ 0 ∧ (0 : ℝ) ≤ 90 ∧ (90 : ℝ) ≤ 180 ∧
    convert_neg_to_pos_cyl (-1) 90 = (1, 180) ∧
    ¬ (convert_neg_to_pos_cyl (-1) 90).2 < 180 := by
  refine ⟨by norm_num, by norm_num, by norm_num, ?_, ?_⟩ <;>
    norm_num [convert_neg_to_pos_cyl, Prod.ext_iff]

/-- C4 (amended): for `negCylMagnitude ≤ 0` and `negAxisDeg ∈ [0, 180]`,
the converter negates the magnitude and rotates the axis by 90°, wrapped
by subtracting 180° when the sum exceeds 180°; the returned axis lies in
the closed interval `[0, 180]` (the value `180` is attained, at
`negAxisDeg = 90`, so the claimed half-open bound `< 180` must be
weakened to `≤ 180`). -/
theorem convert_neg_to_pos_cyl_spec (m a : ℝ) (hm : m ≤ 0) (ha0 : 0 ≤ a) (ha1 : a ≤ 180) :
    (convert_neg_to_pos_cyl m a).1 = -m ∧
    ((convert_neg_to_pos_cyl m a).2 = a + 90 ∨ (convert_neg_to_pos_cyl m a).2 = a + 90 - 180) ∧
    0 ≤ (convert_neg_to_pos_cyl m a).2 ∧ (convert_neg_to_pos_cyl m a).2 ≤ 180 := by
  unfold convert_neg_to_pos_cyl
  split_ifs with h
  · exact ⟨rfl, Or.inr rfl, by constructor <;> simp <;> linarith⟩
  · push_neg at h
    exact ⟨rfl, Or.inl rfl, by constructor <;> simp <;> linarith⟩

/-- Witness for C4 (amended) at `m = -1`, `a = 30`. -/
theorem convert_neg_to_pos_cyl_spec_witness :
    (-1 : ℝ) ≤ 0 ∧ (0 : ℝ) ≤ 30 ∧ (30 : ℝ) ≤ 180 ∧
    ((convert_neg_to_pos_cyl (-1) 30).1 = -(-1) ∧
     ((convert_neg_to_pos_cyl (-1) 30).2 = 30 + 90 ∨
      (convert_neg_to_pos_cyl (-1) 30).2 = 30 + 90 - 180) ∧
     0 ≤ (convert_neg_to_pos_cyl (-1) 30).2 ∧ (convert_neg_to_pos_cyl (-1) 30).2 ≤ 180) :=
  ⟨by norm_num, by norm_num, by norm_num,
   convert_neg_to_pos_cyl_spec (-1) 30 (by norm_num) (by norm_num) (by norm_num)⟩

/-- C6: round trip of the cylinder converter.  Converting the
negative-cylinder measurement `(−c, θ)` with `c > 0` and
`θ ∈ [0, 180)` yields positive magnitude exactly `c`, and rotating the
returned axis back by −90° modulo 180° recovers the original axis `θ`. -/
theorem convert_neg_to_pos_cyl_round_trip (c θ : ℝ) (hc : 0 < c) (h0 : 0 ≤ θ) (h1 : θ < 180) :
    (convert_neg_to_pos_cyl (-c) θ).1 = c ∧
    wrap180 ((convert_neg_to_pos_cyl (-c) θ).2 - 90) = θ := by
  unfold convert_neg_to_pos_cyl wrap180
  refine ⟨by simp, ?_⟩
  split_ifs with h
  · -- θ + 90 > 180: the converter returned θ − 90; rotating back gives θ − 180,
    -- which wraps to θ since θ − 180 ∈ [−180, 0).
    have hfloor : ⌊(θ + 90 - 180 - 90) / 180⌋ = -1 := by
      rw [Int.floor_eq_iff]
      push_cast
      rw [le_div_iff (by norm_num : (0:ℝ) < 180), div_lt_iff (by norm_num : (0:ℝ) < 180)]
      constructor <;> linarith
    rw [hfloor]
    push_cast
    ring
  · -- θ + 90 ≤ 180: the converter returned θ + 90; rotating back gives θ,
    -- already in [0, 180).
    have hfloor : ⌊(θ + 90 - 90) / 180⌋ = 0 := by
      rw [Int.floor_eq_iff]
      push_cast
      rw [le_div_iff (by norm_num : (0:ℝ) < 180), div_lt_iff (by norm_num : (0:ℝ) < 180)]
      constructor <;> linarith
    rw [hfloor]
    ring

/-- Witness for C6 at `c = 1`, `θ = 30`. -/
theorem convert_neg_to_pos_cyl_round_trip_witness :
    (0 : ℝ) < 1 ∧ (0 : ℝ) ≤ 30 ∧ (30 : ℝ) < 180 ∧
    ((convert_neg_to_pos_cyl (-1) 30).1 = 1 ∧
     wrap180 ((convert_neg_to_pos_cyl (-1) 30).2 - 90) = 30) :=
  ⟨by norm_num, by norm_num, by norm_num,
   convert_neg_to_pos_cyl_round_trip 1 30 (by norm_num) (by norm_num) (by norm_num)⟩

/-- C2 counterexample: the string `"XX"` is neither `"OD"` nor `"OS"`
under case-insensitive comparison, yet the laterality encoding does not
fail: it totally returns the code `1` (there is no `InvalidLaterality`
error path anywhere in `inference.py`). -/
theorem laterality_code_no_error_on_XX :
    pyUpper "XX" ≠ "OD" ∧ pyUpper "XX" ≠ "OS" ∧ laterality_code "XX" = 1 := by
  refine ⟨by decide, by decide, ?_⟩
  decide

/-- C2 (amended): the laterality encoding maps a string to `0` exactly
when it equals `"OD"` case-insensitively, and to `1` for every other
string — including `"OS"` in any casing, but also any unrecognized
string; it is total and raises no error. -/
theorem laterality_code_spec (s : String) :
    (laterality_code s = 0 ↔ pyUpper s = "OD") ∧
    (laterality_code s = 1 ↔ pyUpper s ≠ "OD") ∧
    (laterality_code "od" = 0 ∧ laterality_code "Od" = 0 ∧ laterality_code "OD" = 0 ∧
     laterality_code "os" = 1 ∧ laterality_code "OS" = 1) := by
  unfold laterality_code
  refine ⟨?_, ?_, by decide, by decide, by decide, by decide, by decide⟩ <;>
    split_ifs with h <;> simp [h]

/-- C10: for every laterality string that is not `"OD"` under
case-insensitive comparison (whether an `"OS"` casing or arbitrary
text), the encoding totally returns `1` without any error. -/
theorem laterality_code_total_one (s : String) (h : pyUpper s ≠ "OD") :
    laterality_code s = 1 := by
  unfold laterality_code
  simp [h]

/-- Witness for C10 at the arbitrary non-laterality string `"banana"`. -/
theorem laterality_code_total_one_witness :
    pyUpper "banana" ≠ "OD" ∧ laterality_code "banana" = 1 :=
  ⟨by decide, laterality_code_total_one "banana" (by decide)⟩

end LRI

namespace LRI

/-- The built `BIK_axis_cos` feature is the cosine of twice the raw
primary axis converted to radians. -/
theorem preprocess_bik_axis_cos (p : PatientData) :
    (preprocess_patient p).bik_axis_cos = Real.cos (radians (2 * p.barrett_k_axis)) := by
  have h : radians (p.barrett_k_axis * 2) = radians (2 * p.barrett_k_axis) := by
    unfold radians; ring
  show Real.cos (radians (p.barrett_k_axis * 2)) = _
  rw [h]

/-- The threshold gate produces a result exactly when the firing
condition on its two inputs holds. -/
theorem threshold_gate_some_iff (c m : ℝ) :
    (∃ r, threshold_gate c m = some r) ↔ gate_fires c m := by
  unfold threshold_gate gate_fires
  split_ifs with h1 h2 h3 h4 h5
  · exact iff_of_true ⟨_, rfl⟩ (Or.inl ⟨h1, h2⟩)
  · push_neg at h2
    refine iff_of_false (by simp) ?_
    rintro (⟨-, h⟩ | ⟨h, -⟩ | ⟨-, h, -⟩) <;> linarith
  · exact iff_of_true ⟨_, rfl⟩ (Or.inr (Or.inl ⟨h3, h4⟩))
  · push_neg at h1 h4
    refine iff_of_false (by simp) ?_
    rintro (⟨h, -⟩ | ⟨-, h⟩ | ⟨h, -, -⟩) <;> linarith
  · push_neg at h1 h3
    exact iff_of_true ⟨_, rfl⟩ (Or.inr (Or.inr ⟨h3, h1, h5⟩))
  · push_neg at h1 h3 h5
    refine iff_of_false (by simp) ?_
    rintro (⟨h, -⟩ | ⟨h, -⟩ | ⟨-, -, h⟩) <;> linarith

/-- When the firing condition fails, the gate falls through. -/
theorem threshold_gate_eq_none (c m : ℝ) (h : ¬ gate_fires c m) :
    threshold_gate c m = none := by
  rcases ho : threshold_gate c m with _ | r
  · rfl
  · exact absurd ((threshold_gate_some_iff c m).1 ⟨r, ho⟩) h

/-- Every result the gate produces is one of the three terminal
`"None"` results. -/
theorem threshold_gate_cases (c m : ℝ) (r : LRIPrediction)
    (h : threshold_gate c m = some r) :
    r = mkNoneResult .noneATR ∨ r = mkNoneResult .noneWTR ∨ r = mkNoneResult .noneOblique := by
  unfold threshold_gate at h
  split_ifs at h <;>
    first
      | exact Option.noConfusion h
      | exact Or.inl (Option.some.inj h).symm
      | exact Or.inr (Or.inl (Option.some.inj h).symm)
      | exact Or.inr (Or.inr (Option.some.inj h).symm)

/-- Shape of every gate result: the terminal `"None"` fields. -/
theorem threshold_gate_shape (c m : ℝ) (r : LRIPrediction)
    (h : threshold_gate c m = some r) :
    r.arcuate_type = "None" ∧ r.arcuate_code = 0 ∧ r.lri_length = none ∧
    r.lri_axis = none ∧ r.num_arcuates = 0 := by
  obtain h | h | h := threshold_gate_cases c m r h <;> subst h <;>
    exact ⟨rfl, rfl, rfl, rfl, rfl⟩

/-- A firing gate short-circuits `predict`. -/
theorem predict_of_gate (f : Features → ℤ) (g h : Features → ℝ) (p : PatientData)
    (r : LRIPrediction)
    (hr : threshold_gate (preprocess_patient p).bik_axis_cos p.barrett_k_magnitude = some r) :
    predict f g h p = some r := by
  unfold predict
  rw [hr]

/-- A silent gate hands `predict` over to the model route. -/
theorem predict_of_no_gate (f : Features → ℤ) (g h : Features → ℝ) (p : PatientData)
    (hr : threshold_gate (preprocess_patient p).bik_axis_cos p.barrett_k_magnitude = none) :
    predict f g h p =
      classify_route f g h (preprocess_patient p) (pyInt p.barrett_k_axis) := by
  unfold predict
  rw [hr]

/-- C1: in Auto mode, for every patient record and every choice of the
three models, the pipeline returns an immediate terminal
`"None"`-category result from the threshold gate — code 0, length
`none`, axis `none`, count 0 — if and only if the raw Barrett
Integrated-K magnitude is strictly below the threshold of the
orientation category determined by the cosine of twice the primary
axis in radians: `> 0.5` against-the-rule with threshold 0.1,
`< -0.55` with-the-rule with threshold 0.3, otherwise oblique with
threshold 0.2.  A magnitude exactly at its threshold does not fire. -/
theorem predict_gate_none_iff (classifier : Features → ℤ)
    (reg_single reg_paired : Features → ℝ) (p : PatientData) :
    (∃ r, threshold_gate (preprocess_patient p).bik_axis_cos p.barrett_k_magnitude = some r ∧
        predict classifier reg_single reg_paired p = some r ∧
        r.arcuate_type = "None" ∧ r.arcuate_code = 0 ∧ r.lri_length = none ∧
        r.lri_axis = none ∧ r.num_arcuates = 0) ↔
      gate_fires (Real.cos (radians (2 * p.barrett_k_axis))) p.barrett_k_magnitude := by
  rw [← preprocess_bik_axis_cos]
  constructor
  · rintro ⟨r, hg, -⟩
    exact (threshold_gate_some_iff _ _).1 ⟨r, hg⟩
  · intro hf
    obtain ⟨r, hg⟩ := (threshold_gate_some_iff _ _).2 hf
    obtain ⟨h1, h2, h3, h4, h5⟩ := threshold_gate_shape _ _ r hg
    exact ⟨r, hg, predict_of_gate _ _ _ _ _ hg, h1, h2, h3, h4, h5⟩

/-- C8: whenever the raw primary magnitude is below its category's
threshold, the Auto-mode result is independent of all three models:
any two choices of classifier and regressors produce identical
results, so the terminal `"None"` result is fixed before any model is
invoked. -/
theorem predict_gate_model_independent (f₁ f₂ : Features → ℤ)
    (g₁ g₂ h₁ h₂ : Features → ℝ) (p : PatientData)
    (hf : gate_fires (Real.cos (radians (2 * p.barrett_k_axis))) p.barrett_k_magnitude) :
    predict f₁ g₁ h₁ p = predict f₂ g₂ h₂ p := by
  rw [← preprocess_bik_axis_cos] at hf
  obtain ⟨r, hg⟩ := (threshold_gate_some_iff _ _).2 hf
  rw [predict_of_gate _ _ _ _ _ hg, predict_of_gate _ _ _ _ _ hg]

/-- Witness for C8: on `patientGate` (axis 0°, magnitude 0.05) the
gate fires, and two entirely different model triples give the same
Auto-mode result. -/
theorem predict_gate_model_independent_witness :
    gate_fires (Real.cos (radians (2 * patientGate.barrett_k_axis)))
      patientGate.barrett_k_magnitude ∧
    predict (fun _ => 0) (fun _ => 3) (fun _ => 4) patientGate =
      predict (fun _ => 1) (fun _ => 5) (fun _ => 6) patientGate := by
  have hc : Real.cos (radians (2 * patientGate.barrett_k_axis)) = 1 := by
    show Real.cos (radians (2 * (0 : ℝ))) = 1
    norm_num [radians]
  have hf : gate_fires (Real.cos (radians (2 * patientGate.barrett_k_axis)))
      patientGate.barrett_k_magnitude := by
    rw [hc]
    show gate_fires 1 (0.05 : ℝ)
    unfold gate_fires
    norm_num
  exact ⟨hf, predict_gate_model_independent _ _ _ _ _ _ _ hf⟩

end LRI

namespace LRI

/-- C3: in Auto mode, when the gate does not fire, the classifier's
category code determines the result exhaustively: code 0 yields the
terminal `"None"` result of the gate's shape, code 1 yields category
Single with the single-regressor output rounded to one decimal, the
integer-truncated primary reference axis and count 1, and code 2
yields category Paired with the paired-regressor output rounded to one
decimal, the same axis and count 2. -/
theorem predict_classifier_routes (classifier : Features → ℤ)
    (reg_single reg_paired : Features → ℝ) (p : PatientData)
    (hng : ¬ gate_fires (Real.cos (radians (2 * p.barrett_k_axis))) p.barrett_k_magnitude) :
    (classifier (preprocess_patient p) = 0 →
      predict classifier reg_single reg_paired p = some (mkNoneResult .noneModel)) ∧
    (classifier (preprocess_patient p) = 1 →
      predict classifier reg_single reg_paired p =
        some { arcuate_type := "Single", arcuate_code := 1,
               lri_length := some (round1 (reg_single (preprocess_patient p))),
               lri_axis := some (pyInt p.barrett_k_axis), num_arcuates := 1,
               recommendation := .single (round1 (reg_single (preprocess_patient p)))
                 (pyInt p.barrett_k_axis) }) ∧
    (classifier (preprocess_patient p) = 2 →
      predict classifier reg_single reg_paired p =
        some { arcuate_type := "Paired", arcuate_code := 2,
               lri_length := some (round1 (reg_paired (preprocess_patient p))),
               lri_axis := some (pyInt p.barrett_k_axis), num_arcuates := 2,
               recommendation := .paired (round1 (reg_paired (preprocess_patient p)))
                 (pyInt p.barrett_k_axis) }) := by
  rw [← preprocess_bik_axis_cos] at hng
  have hroute := predict_of_no_gate classifier reg_single reg_paired p
    (threshold_gate_eq_none _ _ hng)
  refine ⟨?_, ?_, ?_⟩ <;> intro hc <;> rw [hroute] <;>
    unfold classify_route <;> rw [hc] <;> rfl

/-- Witness for C3 on `patientNoGate` (silent gate) with a constant
code-1 classifier: the Single route is taken with the rounded
single-regressor output. -/
theorem predict_classifier_routes_witness :
    ¬ gate_fires (Real.cos (radians (2 * patientNoGate.barrett_k_axis)))
        patientNoGate.barrett_k_magnitude ∧
    predict (fun _ => 1) (fun _ => 5) (fun _ => 7) patientNoGate =
      some { arcuate_type := "Single", arcuate_code := 1,
             lri_length := some (round1 5),
             lri_axis := some (pyInt patientNoGate.barrett_k_axis), num_arcuates := 1,
             recommendation := .single (round1 5) (pyInt patientNoGate.barrett_k_axis) } := by
  have hc : Real.cos (radians (2 * patientNoGate.barrett_k_axis)) = 1 := by
    show Real.cos (radians (2 * (0 : ℝ))) = 1
    norm_num [radians]
  have hng : ¬ gate_fires (Real.cos (radians (2 * patientNoGate.barrett_k_axis)))
      patientNoGate.barrett_k_magnitude := by
    rw [hc]
    show ¬ gate_fires 1 (0.5 : ℝ)
    unfold gate_fires
    norm_num
  exact ⟨hng, (predict_classifier_routes (fun _ => 1) (fun _ => 5) (fun _ => 7)
    patientNoGate hng).2.1 rfl⟩

/-- C7: the forced-single entry point always returns category Single
(code 1, count 1) with the single-regressor output rounded to one
decimal and the truncated primary axis; it takes no classifier and no
gate inputs at all, and its result coincides with the model route of a
constant code-1 classifier — for any paired regressor and irrespective
of the gate condition. -/
theorem predict_single_only_spec (reg_single reg_paired : Features → ℝ) (p : PatientData) :
    (predict_single_only reg_single p).arcuate_type = "Single" ∧
    (predict_single_only reg_single p).arcuate_code = 1 ∧
    (predict_single_only reg_single p).num_arcuates = 1 ∧
    (predict_single_only reg_single p).lri_length =
      some (round1 (reg_single (preprocess_patient p))) ∧
    (predict_single_only reg_single p).lri_axis = some (pyInt p.barrett_k_axis) ∧
    some (predict_single_only reg_single p) =
      classify_route (fun _ => 1) reg_single reg_paired
        (preprocess_patient p) (pyInt p.barrett_k_axis) :=
  ⟨rfl, rfl, rfl, rfl, rfl, rfl⟩

/-- Every result the model route produces is the terminal `"None"`
result, the Single result built from the single regressor, or the
Paired result built from the paired regressor. -/
theorem classify_route_shapes (f : Features → ℤ) (g h : Features → ℝ)
    (feats : Features) (ax : ℤ) (r : LRIPrediction)
    (hr : classify_route f g h feats ax = some r) :
    r = mkNoneResult .noneModel ∨
    r = { arcuate_type := "Single", arcuate_code := 1,
          lri_length := some (round1 (g feats)), lri_axis := some ax,
          num_arcuates := 1, recommendation := .single (round1 (g feats)) ax } ∨
    r = { arcuate_type := "Paired", arcuate_code := 2,
          lri_length := some (round1 (h feats)), lri_axis := some ax,
          num_arcuates := 2, recommendation := .paired (round1 (h feats)) ax } := by
  unfold classify_route at hr
  split at hr
  · exact Option.noConfusion hr
  · split_ifs at hr <;>
      first
        | exact Or.inl (Option.some.inj hr).symm
        | exact Or.inr (Or.inl (Option.some.inj hr).symm)
        | exact Or.inr (Or.inr (Option.some.inj hr).symm)

/-- C9: every result produced by any of the three entry points — Auto,
forced Single, forced Paired — satisfies the shape invariant: the
incision length and axis are both present exactly when the category is
not `"None"`, and the incision count is 0 for `"None"`, 1 for
`"Single"` and 2 for `"Paired"`. -/
theorem prediction_invariant (classifier : Features → ℤ)
    (reg_single reg_paired : Features → ℝ) (p : PatientData) (r : LRIPrediction)
    (hr : predict classifier reg_single reg_paired p = some r ∨
          r = predict_single_only reg_single p ∨ r = predict_paired_only reg_paired p) :
    ((r.lri_length ≠ none ∧ r.lri_axis ≠ none) ↔ r.arcuate_type ≠ "None") ∧
    (r.arcuate_type = "None" → r.num_arcuates = 0) ∧
    (r.arcuate_type = "Single" → r.num_arcuates = 1) ∧
    (r.arcuate_type = "Paired" → r.num_arcuates = 2) := by
  rcases hr with hr | hr | hr
  · unfold predict at hr
    split at hr
    · next r0 heq =>
      rw [Option.some.inj hr] at heq
      obtain h | h | h := threshold_gate_cases _ _ r heq <;> subst h <;>
        exact ⟨iff_of_false (by simp [mkNoneResult]) (by simp [mkNoneResult, predict_single_only, predict_paired_only]), fun _ => rfl,
          fun hx => absurd hx (by simp [mkNoneResult, predict_single_only, predict_paired_only]), fun hx => absurd hx (by simp [mkNoneResult, predict_single_only, predict_paired_only])⟩
    · obtain h | h | h := classify_route_shapes _ _ _ _ _ _ hr
      · subst h
        exact ⟨iff_of_false (by simp [mkNoneResult]) (by simp [mkNoneResult, predict_single_only, predict_paired_only]), fun _ => rfl,
          fun hx => absurd hx (by simp [mkNoneResult, predict_single_only, predict_paired_only]), fun hx => absurd hx (by simp [mkNoneResult, predict_single_only, predict_paired_only])⟩
      · subst h
        exact ⟨iff_of_true ⟨by simp, by simp⟩ (by simp [mkNoneResult, predict_single_only, predict_paired_only]),
          fun hx => absurd hx (by simp [mkNoneResult, predict_single_only, predict_paired_only]), fun _ => rfl, fun hx => absurd hx (by simp [mkNoneResult, predict_single_only, predict_paired_only])⟩
      · subst h
        exact ⟨iff_of_true ⟨by simp, by simp⟩ (by simp [mkNoneResult, predict_single_only, predict_paired_only]),
          fun hx => absurd hx (by simp [mkNoneResult, predict_single_only, predict_paired_only]), fun hx => absurd hx (by simp [mkNoneResult, predict_single_only, predict_paired_only]), fun _ => rfl⟩
  · subst hr
    exact ⟨iff_of_true ⟨by simp [predict_single_only], by simp [predict_single_only]⟩
        (by simp [mkNoneResult, predict_single_only, predict_paired_only]),
      fun hx => absurd hx (by simp [mkNoneResult, predict_single_only, predict_paired_only]), fun _ => rfl, fun hx => absurd hx (by simp [mkNoneResult, predict_single_only, predict_paired_only])⟩
  · subst hr
    exact ⟨iff_of_true ⟨by simp [predict_paired_only], by simp [predict_paired_only]⟩
        (by simp [mkNoneResult, predict_single_only, predict_paired_only]),
      fun hx => absurd hx (by simp [mkNoneResult, predict_single_only, predict_paired_only]), fun hx => absurd hx (by simp [mkNoneResult, predict_single_only, predict_paired_only]), fun _ => rfl⟩

/-- Witness for C9: the invariant instantiated at the forced-single
result on a concrete patient and constant models. -/
theorem prediction_invariant_witness :
    (predict (fun _ => 0) (fun _ => 3) (fun _ => 4) patientGate =
        some (predict_single_only (fun _ => 3) patientGate) ∨
      predict_single_only (fun _ => 3) patientGate =
        predict_single_only (fun _ => 3) patientGate ∨
      predict_single_only (fun _ => 3) patientGate =
        predict_paired_only (fun _ => 4) patientGate) ∧
    (((predict_single_only (fun _ => 3) patientGate).lri_length ≠ none ∧
        (predict_single_only (fun _ => 3) patientGate).lri_axis ≠ none) ↔
      (predict_single_only (fun _ => 3) patientGate).arcuate_type ≠ "None") ∧
    ((predict_single_only (fun _ => 3) patientGate).arcuate_type = "None" →
      (predict_single_only (fun _ => 3) patientGate).num_arcuates = 0) ∧
    ((predict_single_only (fun _ => 3) patientGate).arcuate_type = "Single" →
      (predict_single_only (fun _ => 3) patientGate).num_arcuates = 1) ∧
    ((predict_single_only (fun _ => 3) patientGate).arcuate_type = "Paired" →
      (predict_single_only (fun _ => 3) patientGate).num_arcuates = 2) :=
  ⟨Or.inr (Or.inl rfl),
   prediction_invariant (fun _ => 0) (fun _ => 3) (fun _ => 4) patientGate _
     (Or.inr (Or.inl rfl))⟩

end LRI
